import Mathlib

/-! Verification of the SynAuth Python SDK (`src/synauth`).

A shallow embedding of the SynAuth client (`src/synauth/client.py`,
`src/synauth/pay.py`) together with proofs about the claims of the
specification.

Modelling conventions:
* JSON values are modelled by the inductive type `JVal`; JSON objects are
  association lists in insertion order (Python dicts preserve insertion
  order).
* Wall-clock time in the polling loops is modelled by counting sleeps:
  after `n` executions of `time.sleep(poll_interval)` the elapsed time
  `time.time() - start` is `n * poll_interval` (status fetches are treated
  as instantaneous).  Durations are rationals.
* The polling loops are given fuel `⌈timeout / poll_interval⌉₊ + 1`; for a
  positive `poll_interval` this fuel is shown to be sufficient, and a
  `none` result models divergence.
* Stateful network interaction is modelled by oracles: a fetch sequence
  `Nat → Snapshot` gives the result of the `k`-th `get_status` call, and
  functions return fetch counts so that claims about the number of network
  calls can be stated.
-/

/-- A JSON value, as produced by `resp.json()` / sent via `json=payload`.
Objects keep their fields in insertion order. -/
inductive JVal where
  | null : JVal
  | str : String → JVal
  | num : ℚ → JVal
  | bool : Bool → JVal
  | obj : List (String × JVal) → JVal

/-- Python truthiness of an optional string argument (`if description:`):
`None` and the empty string are falsy. -/
def strTruthy : Option String → Bool
  | none => false
  | some s => !(s == "")

/-- Python truthiness of an optional dict argument (`if metadata:`):
`None` and the empty dict are falsy. -/
def dictTruthy : Option (List (String × JVal)) → Bool
  | none => false
  | some d => !d.isEmpty

/-- The arguments of `SynAuthClient.request_action`
(`src/synauth/client.py`, lines 129-142), with the source defaults.
Optional-with-`None`-default parameters are `Option`s; `currency` has the
plain default `"USD"` exactly as in the source, so "not supplied" for
`currency` means "left at its default". -/
structure ActionArgs where
  action_type : String
  title : String
  description : Option String := none
  risk_level : String := "medium"
  reversible : Bool := true
  amount : Option ℚ := none
  currency : String := "USD"
  recipient : Option String := none
  metadata : Option (List (String × JVal)) := none
  expires_in_seconds : ℕ := 300
  callback_url : Option String := none

/-- The JSON payload built by `SynAuthClient.request_action`
(`src/synauth/client.py`, lines 149-166): the five required fields are put
into the dict unconditionally, then each optional field is appended only
when its Python presence test succeeds (`if description:` etc. are
truthiness tests; `amount` is tested with `is not None`, and `currency` is
sent exactly when `amount` is). -/
def request_action_payload (a : ActionArgs) : List (String × JVal) :=
  [("action_type", .str a.action_type),
   ("title", .str a.title),
   ("risk_level", .str a.risk_level),
   ("reversible", .bool a.reversible),
   ("expires_in_seconds", .num a.expires_in_seconds)]
  ++ (if strTruthy a.description then [("description", .str (a.description.getD ""))] else [])
  ++ (match a.amount with
      | some amt => [("amount", .num amt), ("currency", .str a.currency)]
      | none => [])
  ++ (if strTruthy a.recipient then [("recipient", .str (a.recipient.getD ""))] else [])
  ++ (if dictTruthy a.metadata then [("metadata", .obj (a.metadata.getD []))] else [])
  ++ (if strTruthy a.callback_url then [("callback_url", .str (a.callback_url.getD ""))] else [])

/-- The keys of a JSON object, in order. -/
def jsonKeys (payload : List (String × JVal)) : List String :=
  payload.map Prod.fst

/-- A status snapshot of an action request, as returned by
`GET /actions/{id}`: the dict fields the client reads
(`status["status"]`, `result["id"]`, `result.get("deny_reason")`). -/
structure Snapshot where
  status : String
  id : String
  deny_reason : Option String := none
deriving DecidableEq

/-- The polling loop of `SynAuthClient.wait_for_result`
(`src/synauth/client.py`, lines 181-187).

`fetch k` is the snapshot returned by the `k`-th `get_status` call; `n` is
the number of completed loop iterations so far (= number of sleeps, so the
elapsed time at the top of the loop is `n * pollInterval`); `fuel` bounds
the number of remaining iterations, with `none` modelling divergence.
Returns the final snapshot together with the total number of `get_status`
calls performed. -/
def waitLoop (fetch : ℕ → Snapshot) (timeout pollInterval : ℚ) :
    ℕ → ℕ → Option (Snapshot × ℕ)
  | 0, _ => none
  | fuel + 1, n =>
    if (n : ℚ) * pollInterval < timeout then
      -- status = self.get_status(request_id); return it unless pending
      if (fetch n).status ≠ "pending" then some (fetch n, n + 1)
      else waitLoop fetch timeout pollInterval fuel (n + 1)
    else
      -- timeout elapsed: one final status check, returned as-is
      some (fetch n, n + 1)

/-- The number of loop iterations before the timeout guard
`time.time() - start < timeout` fails: with a positive `pollInterval` the
guard at iteration `n` is `n * pollInterval < timeout`, which holds exactly
for `n < ⌈timeout / pollInterval⌉₊`. -/
def loopIters (timeout pollInterval : ℚ) : ℕ :=
  ⌈timeout / pollInterval⌉₊

/-- Model of `SynAuthClient.wait_for_result` (`src/synauth/client.py`, lines
174-187), instrumented with the fetch count. -/
def wait_for_result (fetch : ℕ → Snapshot) (timeout pollInterval : ℚ) :
    Option (Snapshot × ℕ) :=
  waitLoop fetch timeout pollInterval (loopIters timeout pollInterval + 1) 0

/-- The ASCII apostrophe, as a one-character string (it occurs in the
error message built by `execute_api_call`). -/
def squote : String := (Char.ofNat 39).toString

/-- The JSON payload built in step 1 of `SynAuthClient.execute_api_call`
(`src/synauth/client.py`, lines 302-315).  The Python source computes the
title as `description or f"API call: ..."` (a truthiness test, so an empty
string also falls back) and the metadata headers as `headers or` the empty
dict; `body` is placed in the metadata as-is, so a missing body is sent as
JSON `null` inside the metadata. -/
def execute_api_call_payload (service_name method url : String)
    (headers : Option (List (String × JVal))) (body : Option String)
    (description : Option String) : List (String × JVal) :=
  [("action_type", .str "data_access"),
   ("title", .str (if strTruthy description then description.getD ""
                   else "API call: " ++ method ++ " " ++ url)),
   ("description", .str ("Service: " ++ service_name ++ " | " ++ method ++ " " ++ url)),
   ("risk_level", .str "medium"),
   ("metadata", .obj
     [("vault_execute", .bool true),
      ("service_name", .str service_name),
      ("method", .str method),
      ("url", .str url),
      ("headers", .obj (if dictTruthy headers then headers.getD [] else [])),
      ("body", match body with | some b => .str b | none => .null)])]

/-- The observable outcome of `SynAuthClient.execute_api_call`: either the
response of the final `POST /vault/execute/...` call (of abstract type
`β`), or one of the typed exceptions the method raises. -/
inductive ExecOutcome (β : Type) where
  | success (resp : β)
  | denied (request_id : String) (reason : Option String)
  | expired (request_id : String)
  | vaultError (detail : String)
deriving DecidableEq

/-- The polling loop in step 2 of `SynAuthClient.execute_api_call`
(`src/synauth/client.py`, lines 326-331).  Unlike `waitLoop` this loop
exits with `break`: on timeout expiry the current value of the `result`
variable (`cur`) is kept and no further status fetch is made.  Returns the
value of `result` after the loop together with the number of `get_status`
calls performed. -/
def execWaitLoop (fetch : ℕ → Snapshot) (timeout pollInterval : ℚ)
    (cur : Snapshot) : ℕ → ℕ → Option (Snapshot × ℕ)
  | 0, _ => none
  | fuel + 1, n =>
    if (n : ℚ) * pollInterval < timeout then
      -- result = self.get_status(request_id); break unless pending
      if (fetch n).status ≠ "pending" then some (fetch n, n + 1)
      else execWaitLoop fetch timeout pollInterval (fetch n) fuel (n + 1)
    else
      -- guard failed: keep the last-held result, no final fetch
      some (cur, n)

/-- Steps 1-2 of `execute_api_call` after the create call: the `result`
variable is the create response, and the polling loop runs only when that
response is `"pending"` (`src/synauth/client.py`, lines 325-331).  Returns
the snapshot in scope when the status dispatch (lines 333-340) runs, plus
the number of `get_status` calls made. -/
def execPhase2 (create : Snapshot) (fetch : ℕ → Snapshot)
    (timeout pollInterval : ℚ) : Option (Snapshot × ℕ) :=
  if create.status = "pending" then
    execWaitLoop fetch timeout pollInterval create (loopIters timeout pollInterval + 1) 0
  else some (create, 0)

/-- Model of `SynAuthClient.execute_api_call` (`src/synauth/client.py`, lines
256-343), with the network modelled by oracles: `create` is the response
of the initial `POST /actions` call, `fetch k` the response of the `k`-th
`get_status` call, and `execResp` the response of the final
`POST /vault/execute/...` call.  Returns the outcome together with the
number of `get_status` calls and the number of vault-execute calls
performed; `none` models divergence of the polling loop. -/
def execute_api_call_run {β : Type} (create : Snapshot) (fetch : ℕ → Snapshot)
    (execResp : β) (timeout pollInterval : ℚ) :
    Option (ExecOutcome β × ℕ × ℕ) :=
  -- may be auto-denied by rules: no polling, no execute-phase call
  if create.status = "denied" then
    some (.denied create.id create.deny_reason, 0, 0)
  else
    match execPhase2 create fetch timeout pollInterval with
    | none => none
    | some (r, n) =>
      if r.status = "expired" then some (.expired create.id, n, 0)
      else if r.status = "denied" then some (.denied create.id r.deny_reason, n, 0)
      else if r.status ≠ "approved" then
        some (.vaultError ("Unexpected status " ++ squote ++ r.status ++ squote ++
              " for request " ++ create.id), n, 0)
      else
        -- step 3: execute with stored credential, exactly one extra call
        some (.success execResp, n, 1)

/-- An HTTP response as seen by `SynAuthClient._request`: the
`status_code`, the raw body `text`, and the result of `resp.json()` —
`some v` when the body parses as JSON (`jsonBody` is the parse of `text`),
`none` when parsing raises `ValueError`. -/
structure HttpResponse where
  status_code : ℕ
  jsonBody : Option JVal
  text : String

/-- Model of `requests.Response.ok`: true iff the status code is below 400 (so 3xx
responses count as ok). -/
def HttpResponse.ok (resp : HttpResponse) : Bool :=
  resp.status_code < 400

/-- The data carried by a raised `SynAuthAPIError`
(`src/synauth/client.py`, lines 51-65): the HTTP status code, the detail
(kept as a JSON value, since the source passes the result of
`resp.json().get(...)` through unconverted), and whether the exception is
the `RateLimitError` subclass. -/
structure APIErrorData where
  status_code : ℕ
  detail : JVal
  isRateLimit : Bool

/-- What `_request` does with a backend response: return the parsed JSON
body, raise a typed SDK exception, or let an untyped Python exception
escape (`AttributeError` when `.get` is called on a non-dict JSON body;
`ValueError` when a success body fails to parse as JSON). -/
inductive RequestOutcome where
  | ok (body : JVal)
  | apiError (e : APIErrorData)
  | pythonError (name : String)

/-- The response handling of `SynAuthClient._request`
(`src/synauth/client.py`, lines 113-125).  HTTP 429 raises
`RateLimitError` (a `SynAuthAPIError` with code 429 and default detail
"Rate limit exceeded").  Otherwise a not-`ok` response raises
`SynAuthAPIError` whose detail is `resp.json().get("detail", resp.text)`:
the `detail` field of a JSON-object body, the raw text when the body is
not parseable JSON (the `ValueError` is caught) or when the object has no
`detail` key (`.get` default) — but when the body parses to a JSON value
that is not an object, `.get` raises `AttributeError`, which is not among
the caught exception classes (`ValueError`, `KeyError`) and escapes.
An `ok` response (status below 400, including 3xx) has `resp.json()`
returned, where a parse failure raises an uncaught `ValueError`. -/
def handle_response (resp : HttpResponse) : RequestOutcome :=
  if resp.status_code = 429 then
    .apiError ⟨429, .str "Rate limit exceeded", true⟩
  else if !resp.ok then
    match resp.jsonBody with
    | some (.obj fields) =>
        .apiError ⟨resp.status_code, (List.lookup "detail" fields).getD (.str resp.text), false⟩
    | some _ => .pythonError "AttributeError"
    | none => .apiError ⟨resp.status_code, .str resp.text, false⟩
  else
    match resp.jsonBody with
    | some v => .ok v
    | none => .pythonError "ValueError"

/-- The key order used to canonicalize a parameter mapping: compare
entries by their key string. -/
def keyLE (a b : String × JVal) : Prop :=
  a.1 ≤ b.1

instance : DecidableRel keyLE :=
  fun a b => inferInstanceAs (Decidable (a.1 ≤ b.1))

instance : IsTotal (String × JVal) keyLE :=
  ⟨fun a b => le_total a.1 b.1⟩

instance : IsTrans (String × JVal) keyLE :=
  ⟨fun _ _ _ h1 h2 => le_trans h1 h2⟩

/-- Modelled from the spec (§4.4): the canonical form of a parameter
mapping — its entries in sorted key order ("canonicalize key order before
hashing"). -/
def canonicalParams (params : List (String × JVal)) : List (String × JVal) :=
  List.insertionSort keyLE params

mutual

/-- Modelled from the spec (§3, ContentFingerprint): a deterministic
serialization of a JSON value ("ordered serialization of the exact
parameters of an action"). -/
def JVal.serialize : JVal → String
  | .null => "null"
  | .str s => "\"" ++ s ++ "\""
  | .num q => toString q
  | .bool b => if b then "true" else "false"
  | .obj fields => "\x7b" ++ JVal.serializeFields fields ++ "\x7d"

/-- Serialization of the fields of a JSON object, comma-separated and in
the order given. -/
def JVal.serializeFields : List (String × JVal) → String
  | [] => ""
  | (k, v) :: rest =>
    "\"" ++ k ++ "\":" ++ v.serialize ++
      (if rest.isEmpty then "" else ",") ++ JVal.serializeFields rest

end

/-- Modelled from the spec: `compute_content_hash` is imported from the
`synauth` package by the example agents (`src/examples/agent_example.py`,
line 45) but its definition is not among the source files.  Per §4.4 of
the spec it is a pure, stateless function from a parameter mapping to a
fingerprint string that canonicalizes key order before hashing; here the
canonicalized mapping is serialized and digested by a simple
deterministic fold standing in for the cryptographic digest. -/
def compute_content_hash (params : List (String × JVal)) : String :=
  toString ((JVal.obj (canonicalParams params)).serialize.foldl
    (fun h c => (h * 131 + c.toNat) % 1000000007) 7)

/-- Modelled from the spec (§3): the backend-reported fingerprint for the
same parameters — the ContentFingerprint invariant requires the backend to
compute the identical canonical-serialization digest, so that client-side
recomputation matches it bit-for-bit. -/
def backend_content_hash (params : List (String × JVal)) : String :=
  compute_content_hash params

/-- Model of `SynAuthClient.request_email` (`src/synauth/client.py`, lines
347-355) as an argument-shaping function: the `ActionArgs` it forwards to
`request_action`.  `riskLevel` models `kwargs.pop("risk_level", "low")`:
`none` when the caller did not override the risk level. -/
def request_email (recipient subject : String)
    (preview : Option String := none) (riskLevel : Option String := none) :
    ActionArgs :=
  { action_type := "communication"
    title := "Send email: " ++ subject
    description := preview
    recipient := some recipient
    risk_level := riskLevel.getD "low" }

/-- Model of `SynAuthClient.request_purchase` (`src/synauth/client.py`, lines
357-366): fixed category `purchase`, default risk `medium`; `currency` and
`metadata` model the corresponding `kwargs` passed through to
`request_action` (its defaults when absent). -/
def request_purchase (amount : ℚ) (merchant : String)
    (description : Option String := none) (riskLevel : Option String := none)
    (currency : String := "USD")
    (metadata : Option (List (String × JVal)) := none) : ActionArgs :=
  { action_type := "purchase"
    title := "Purchase from " ++ merchant
    description := description
    amount := some amount
    recipient := some merchant
    risk_level := riskLevel.getD "medium"
    currency := currency
    metadata := metadata }

/-- Model of `SynAuthClient.request_booking` (`src/synauth/client.py`, lines
368-376): fixed category `scheduling`, default risk `low`. -/
def request_booking (title : String) (description : Option String := none)
    (amount : Option ℚ := none) (riskLevel : Option String := none) :
    ActionArgs :=
  { action_type := "scheduling"
    title := title
    description := description
    amount := amount
    risk_level := riskLevel.getD "low" }

/-- Model of `SynAuthClient.request_post` (`src/synauth/client.py`, lines
378-385): fixed category `social`, default risk `medium`. -/
def request_post (platform content_preview : String)
    (riskLevel : Option String := none) : ActionArgs :=
  { action_type := "social"
    title := "Post to " ++ platform
    description := some content_preview
    risk_level := riskLevel.getD "medium" }

/-- Model of `SynAuthClient.request_data_access` (`src/synauth/client.py`, lines
387-394): fixed category `data_access`, default risk `high`. -/
def request_data_access (resource reason : String)
    (riskLevel : Option String := none) : ActionArgs :=
  { action_type := "data_access"
    title := "Access: " ++ resource
    description := some reason
    risk_level := riskLevel.getD "high" }

/-- Model of `SynAuthClient.request_contract` (`src/synauth/client.py`, lines
396-404): fixed category `legal`, always `reversible = False`, default
risk `critical`. -/
def request_contract (title description : String)
    (riskLevel : Option String := none) : ActionArgs :=
  { action_type := "legal"
    title := title
    description := some description
    reversible := false
    risk_level := riskLevel.getD "critical" }

/-- Model of `SynAuthClient.get_status` (`src/synauth/client.py`, lines 170-172),
with the backend and HTTP stack modelled by the oracle `fetch` giving the
snapshot answered to the `k`-th status call for this request. -/
def SynAuthClient.get_status (fetch : ℕ → Snapshot) (k : ℕ) : Snapshot :=
  fetch k

/-- Model of `SynPayClient.get_status` (`src/synauth/pay.py`, lines 54-56):
forwards to the wrapped `SynAuthClient.get_status` unchanged. -/
def SynPay.get_status (fetch : ℕ → Snapshot) (k : ℕ) : Snapshot :=
  SynAuthClient.get_status fetch k

/-- Alias for the top-level `wait_for_result`, needed to refer to it from
inside the `SynPay` namespace (where the bare name would resolve to the
declaration being defined). -/
def waitForResultFn : (ℕ → Snapshot) → ℚ → ℚ → Option (Snapshot × ℕ) :=
  wait_for_result

/-- Model of `SynPayClient.wait_for_result` (`src/synauth/pay.py`, lines 58-71):
forwards to the wrapped `SynAuthClient.wait_for_result` unchanged. -/
def SynPay.wait_for_result (fetch : ℕ → Snapshot)
    (timeout pollInterval : ℚ) : Option (Snapshot × ℕ) :=
  waitForResultFn fetch timeout pollInterval

/-- Model of `SynPayClient.request_payment` (`src/synauth/pay.py`, lines 34-52):
forwards to `SynAuthClient.request_purchase` with the same amount,
merchant, description, currency and metadata (its `description` parameter
is required, and it passes no risk-level override). -/
def SynPay.request_payment (amount : ℚ) (merchant description : String)
    (currency : String := "USD")
    (metadata : Option (List (String × JVal)) := none) : ActionArgs :=
  request_purchase amount merchant (some description) none currency metadata

/-- Test fixture: a status-fetch sequence returning pending, pending and
then approved, as in the polling-termination scenario of the spec. -/
def exApproveFetch : ℕ → Snapshot
  | 0 => ⟨"pending", "req1", none⟩
  | 1 => ⟨"pending", "req1", none⟩
  | _ => ⟨"approved", "req1", none⟩

/-- Test fixture: a status-fetch sequence that is always still pending. -/
def exPendingFetch : ℕ → Snapshot :=
  fun _ => ⟨"pending", "req1", none⟩

theorem loop_guard_iff {pollInterval : ℚ} (hp : 0 < pollInterval)
    (timeout : ℚ) (n : ℕ) :
    ((n : ℚ) * pollInterval < timeout ↔ n < loopIters timeout pollInterval) := by
  rw [loopIters, Nat.lt_ceil, lt_div_iff₀ hp]

/-- If some fetch with index `i ≤ loopIters` is the first non-`"pending"`
one, the wait loop returns it after exactly `i + 1` fetches (for `i`
strictly inside the window it returns from inside the loop; for
`i = loopIters` it is returned by the final post-timeout check). -/
theorem waitLoop_first_terminal {fetch : ℕ → Snapshot}
    {timeout pollInterval : ℚ} (hp : 0 < pollInterval) {i : ℕ}
    (hpend : ∀ k < i, (fetch k).status = "pending")
    (hterm : (fetch i).status ≠ "pending")
    (hle : i ≤ loopIters timeout pollInterval) :
    ∀ fuel n, n ≤ i → i + 1 - n ≤ fuel →
      waitLoop fetch timeout pollInterval fuel n = some (fetch i, i + 1) := by
  intro fuel
  induction fuel with
  | zero => intro n hn hfuel; omega
  | succ fuel ih =>
    intro n hn hfuel
    rcases eq_or_lt_of_le hn with rfl | hlt
    · -- n = i : the loop either sees the terminal status or has timed out
      rw [waitLoop]
      by_cases hg : (n : ℚ) * pollInterval < timeout
      · simp [hg, hterm]
      · simp [hg]
    · -- n < i : fetch n is pending and the guard holds, so we iterate
      have hg : (n : ℚ) * pollInterval < timeout := by
        rw [loop_guard_iff hp]
        omega
      rw [waitLoop]
      simp only [hg, if_true, hpend n hlt, ne_eq, not_true_eq_false, if_false]
      exact ih (n + 1) (by omega) (by omega)

/-- If every fetch is `"pending"`, the wait loop runs until the timeout
guard fails after `loopIters` iterations, then performs one final fetch
and returns it (still pending). -/
theorem waitLoop_all_pending {fetch : ℕ → Snapshot}
    {timeout pollInterval : ℚ} (hp : 0 < pollInterval)
    (hpend : ∀ k, (fetch k).status = "pending") :
    ∀ fuel n, n ≤ loopIters timeout pollInterval →
      loopIters timeout pollInterval + 1 - n ≤ fuel →
      waitLoop fetch timeout pollInterval fuel n =
        some (fetch (loopIters timeout pollInterval),
              loopIters timeout pollInterval + 1) := by
  intro fuel
  induction fuel with
  | zero => intro n hn hfuel; omega
  | succ fuel ih =>
    intro n hn hfuel
    rcases eq_or_lt_of_le hn with heq | hlt
    · have hg : ¬ ((n : ℚ) * pollInterval < timeout) := by
        rw [loop_guard_iff hp]
        omega
      subst heq
      rw [waitLoop]
      simp [hg]
    · have hg : (n : ℚ) * pollInterval < timeout := by
        rw [loop_guard_iff hp]
        omega
      rw [waitLoop]
      simp only [hg, if_true, hpend n, ne_eq, not_true_eq_false, if_false]
      exact ih (n + 1) (by omega) (by omega)

/-- Analogue of `waitLoop_first_terminal` for the break-style loop of
`execute_api_call`: a first non-pending fetch strictly inside the timeout
window is returned after exactly `i + 1` fetches, whatever snapshot the
loop currently holds. -/
theorem execWaitLoop_first_terminal {fetch : ℕ → Snapshot}
    {timeout pollInterval : ℚ} (hp : 0 < pollInterval) {i : ℕ}
    (hpend : ∀ k < i, (fetch k).status = "pending")
    (hterm : (fetch i).status ≠ "pending")
    (hiN : i < loopIters timeout pollInterval) :
    ∀ fuel cur n, n ≤ i → i + 1 - n ≤ fuel →
      execWaitLoop fetch timeout pollInterval cur fuel n = some (fetch i, i + 1) := by
  intro fuel
  induction fuel with
  | zero => intro cur n hn hfuel; omega
  | succ fuel ih =>
    intro cur n hn hfuel
    rcases eq_or_lt_of_le hn with heq | hlt
    · subst heq
      have hg : (n : ℚ) * pollInterval < timeout := by
        rw [loop_guard_iff hp]
        omega
      rw [execWaitLoop]
      simp [hg, hterm]
    · have hg : (n : ℚ) * pollInterval < timeout := by
        rw [loop_guard_iff hp]
        omega
      rw [execWaitLoop]
      simp only [hg, if_true, hpend n hlt, ne_eq, not_true_eq_false, if_false]
      exact ih (fetch n) (n + 1) (by omega) (by omega)

/-- Analogue of `waitLoop_all_pending` for the break-style loop of
`execute_api_call`: if every fetch is pending, the loop exits when the
timeout guard fails, after `loopIters` fetches, holding the snapshot of
the last fetch (or the initial one if no iteration ran) — it performs no
final post-timeout fetch. -/
theorem execWaitLoop_all_pending {fetch : ℕ → Snapshot}
    {timeout pollInterval : ℚ} (hp : 0 < pollInterval)
    (hpend : ∀ k, (fetch k).status = "pending") :
    ∀ fuel cur n, n ≤ loopIters timeout pollInterval →
      loopIters timeout pollInterval + 1 - n ≤ fuel →
      execWaitLoop fetch timeout pollInterval cur fuel n =
        some ((if n < loopIters timeout pollInterval then
                 fetch (loopIters timeout pollInterval - 1) else cur),
              loopIters timeout pollInterval) := by
  intro fuel
  induction fuel with
  | zero => intro cur n hn hfuel; omega
  | succ fuel ih =>
    intro cur n hn hfuel
    rcases eq_or_lt_of_le hn with heq | hlt
    · have hg : ¬ ((n : ℚ) * pollInterval < timeout) := by
        rw [loop_guard_iff hp]
        omega
      subst heq
      rw [execWaitLoop]
      simp [hg]
    · have hg : (n : ℚ) * pollInterval < timeout := by
        rw [loop_guard_iff hp]
        omega
      rw [execWaitLoop]
      simp only [hg, if_true, hpend n, ne_eq, not_true_eq_false, if_false]
      rw [ih (fetch n) (n + 1) (by omega) (by omega)]
      have h0 : 0 < loopIters timeout pollInterval := by omega
      rcases Nat.lt_or_ge (n + 1) (loopIters timeout pollInterval) with h1 | h1
      · simp [h1, hlt]
      · have hn1 : n = loopIters timeout pollInterval - 1 := by omega
        have h2 : ¬ (n + 1 < loopIters timeout pollInterval) := by omega
        simp [hlt, h2, hn1, h0]

/-- C1: `wait_for_result` polls `get_status`, sleeping `poll_interval`
between fetches, and returns the first snapshot whose status is not
`"pending"`, fetching nothing further after a terminal result (first
conjunct); for a fetch sequence pending, pending, approved and a positive
`poll_interval` shorter than `timeout` it returns the approved snapshot
after exactly 3 fetches (second conjunct); and when every fetch is still
pending it runs until the timeout guard fails, performs exactly one final
status check and returns that still-pending snapshot without any
timeout-specific error (third conjunct). -/
theorem wait_for_result_spec (fetch : ℕ → Snapshot) (timeout pollInterval : ℚ)
    (hp : 0 < pollInterval) :
    (∀ i ≤ loopIters timeout pollInterval,
       (∀ k < i, (fetch k).status = "pending") →
       (fetch i).status ≠ "pending" →
       wait_for_result fetch timeout pollInterval = some (fetch i, i + 1))
  ∧ (pollInterval < timeout →
       (fetch 0).status = "pending" → (fetch 1).status = "pending" →
       (fetch 2).status = "approved" →
       wait_for_result fetch timeout pollInterval = some (fetch 2, 3))
  ∧ ((∀ k, (fetch k).status = "pending") →
       wait_for_result fetch timeout pollInterval =
         some (fetch (loopIters timeout pollInterval),
               loopIters timeout pollInterval + 1)) := by
  refine ⟨?_, ?_, ?_⟩
  · intro i hi hpend hterm
    rw [wait_for_result]
    exact waitLoop_first_terminal hp hpend hterm hi _ 0 (by omega) (by omega)
  · intro hpt h0 h1 h2
    have h2N : 2 ≤ loopIters timeout pollInterval := by
      have hd : (1 : ℚ) < timeout / pollInterval := (one_lt_div hp).mpr hpt
      have : 1 < loopIters timeout pollInterval := by
        rw [loopIters]
        exact Nat.lt_ceil.mpr (by push_cast; exact hd)
      omega
    rw [wait_for_result]
    have hpend : ∀ k < 2, (fetch k).status = "pending" := by
      intro k hk
      interval_cases k
      · exact h0
      · exact h1
    have hterm : (fetch 2).status ≠ "pending" := by
      rw [h2]
      decide
    exact waitLoop_first_terminal hp hpend hterm h2N _ 0 (by omega) (by omega)
  · intro hpend
    rw [wait_for_result]
    exact waitLoop_all_pending hp hpend _ 0 (by omega) (by omega)

/-- Witness for C1 at concrete inputs: with `timeout = 5` and
`poll_interval = 1`, a pending/pending/approved fetch sequence yields the
approved snapshot after exactly 3 fetches, and an always-pending sequence
yields a pending snapshot after 6 fetches (5 in-loop polls and one final
check). -/
theorem wait_for_result_spec_witness :
    wait_for_result exApproveFetch 5 1 = some (⟨"approved", "req1", none⟩, 3)
  ∧ wait_for_result exPendingFetch 5 1 = some (⟨"pending", "req1", none⟩, 6) := by
  constructor
  · exact (wait_for_result_spec exApproveFetch 5 1 (by norm_num)).2.1
      (by norm_num) rfl rfl rfl
  · have h := (wait_for_result_spec exPendingFetch 5 1 (by norm_num)).2.2
      (fun k => rfl)
    have hN : loopIters 5 1 = 5 := by
      rw [loopIters]
      norm_num
    rw [hN] at h
    exact h

/-- C4 counterexample: with an always-pending backend, `timeout = 1` and
`poll_interval = 1`, `wait_for_result` performs 2 status fetches (one
in-loop poll plus the final post-timeout check) while the polling phase of
`execute_api_call`, started from a pending create response, performs only
1 — so the two do not perform the same number of status fetches after
timeout expiry, contrary to the claim. -/
theorem execPhase2_vs_wait_counterexample :
    wait_for_result exPendingFetch 1 1 = some (⟨"pending", "req1", none⟩, 2)
  ∧ execPhase2 ⟨"pending", "req1", none⟩ exPendingFetch 1 1 =
      some (⟨"pending", "req1", none⟩, 1) := by
  have h : loopIters 1 1 = 1 := by
    rw [loopIters]
    norm_num
  constructor
  · rw [wait_for_result, h]
    norm_num [waitLoop, exPendingFetch]
  · rw [execPhase2]
    norm_num [h, execWaitLoop, exPendingFetch]

/-- C4 (amended): when the create response is still pending, the polling
phase of `execute_api_call` agrees with `wait_for_result` (same number of
status fetches, same final snapshot) whenever the first non-pending fetch
occurs strictly inside the timeout window; but when every fetch is
pending, `wait_for_result` performs one final post-timeout fetch
(`loopIters + 1` fetches, returning the extra fetch) while the execute
polling phase performs exactly one fewer (`loopIters` fetches) and keeps
the snapshot of its last in-loop fetch. -/
theorem execPhase2_vs_wait (create : Snapshot) (fetch : ℕ → Snapshot)
    (timeout pollInterval : ℚ) (hp : 0 < pollInterval)
    (hcreate : create.status = "pending") :
    (∀ i, (∀ k < i, (fetch k).status = "pending") →
       (fetch i).status ≠ "pending" → i < loopIters timeout pollInterval →
       execPhase2 create fetch timeout pollInterval = some (fetch i, i + 1) ∧
       wait_for_result fetch timeout pollInterval = some (fetch i, i + 1))
  ∧ ((∀ k, (fetch k).status = "pending") →
       0 < loopIters timeout pollInterval →
       execPhase2 create fetch timeout pollInterval =
         some (fetch (loopIters timeout pollInterval - 1),
               loopIters timeout pollInterval) ∧
       wait_for_result fetch timeout pollInterval =
         some (fetch (loopIters timeout pollInterval),
               loopIters timeout pollInterval + 1)) := by
  constructor
  · intro i hpend hterm hiN
    constructor
    · rw [execPhase2]
      simp only [hcreate, if_true]
      exact execWaitLoop_first_terminal hp hpend hterm hiN _ create 0
        (by omega) (by omega)
    · rw [wait_for_result]
      exact waitLoop_first_terminal hp hpend hterm (by omega) _ 0
        (by omega) (by omega)
  · intro hpend h0
    constructor
    · rw [execPhase2]
      simp only [hcreate, if_true]
      rw [execWaitLoop_all_pending hp hpend _ create 0 (by omega) (by omega)]
      simp [h0]
    · rw [wait_for_result]
      exact waitLoop_all_pending hp hpend _ 0 (by omega) (by omega)

/-- Witness for the amended C4 at concrete inputs: with `timeout = 5`,
`poll_interval = 1` and a pending create response, a
pending/pending/approved backend gives the same result (3 fetches, the
approved snapshot) through both polling routines, while an always-pending
backend gives 5 fetches through the execute phase and 6 through
`wait_for_result`. -/
theorem execPhase2_vs_wait_witness :
    (execPhase2 ⟨"pending", "req1", none⟩ exApproveFetch 5 1 =
        some (⟨"approved", "req1", none⟩, 3) ∧
     wait_for_result exApproveFetch 5 1 = some (⟨"approved", "req1", none⟩, 3))
  ∧ (execPhase2 ⟨"pending", "req1", none⟩ exPendingFetch 5 1 =
        some (⟨"pending", "req1", none⟩, 5) ∧
     wait_for_result exPendingFetch 5 1 = some (⟨"pending", "req1", none⟩, 6)) := by
  have hN : loopIters 5 1 = 5 := by
    rw [loopIters]
    norm_num
  constructor
  · have h := (execPhase2_vs_wait ⟨"pending", "req1", none⟩ exApproveFetch 5 1
      (by norm_num) rfl).1 2
      (by intro k hk; interval_cases k <;> rfl) (by decide) (by rw [hN]; omega)
    exact h
  · have h := (execPhase2_vs_wait ⟨"pending", "req1", none⟩ exPendingFetch 5 1
      (by norm_num) rfl).2 (fun k => rfl) (by rw [hN]; omega)
    rw [hN] at h
    exact h

/-- C2: outcome mapping of `execute_api_call`.  If the create-action
response has status `"denied"` the call raises the denied failure carrying
the identifier and deny reason, with zero status fetches and zero
execute-phase calls (first conjunct); otherwise, with `r` the snapshot held
after the wait phase: `"denied"` raises the denied failure with the
reason of `r`, `"expired"` raises the expiry failure, any other non-`"approved"`
status raises a vault-execution failure naming the unexpected status, and
only on `"approved"` is exactly one additional vault-execute call issued,
whose response is returned (second conjunct). -/
theorem execute_api_call_mapping {β : Type} (create : Snapshot)
    (fetch : ℕ → Snapshot) (execResp : β) (timeout pollInterval : ℚ) :
    (create.status = "denied" →
       execute_api_call_run create fetch execResp timeout pollInterval =
         some (.denied create.id create.deny_reason, 0, 0))
  ∧ (∀ r n, create.status ≠ "denied" →
       execPhase2 create fetch timeout pollInterval = some (r, n) →
       ((r.status = "expired" →
           execute_api_call_run create fetch execResp timeout pollInterval =
             some (.expired create.id, n, 0))
      ∧ (r.status = "denied" →
           execute_api_call_run create fetch execResp timeout pollInterval =
             some (.denied create.id r.deny_reason, n, 0))
      ∧ (r.status ≠ "expired" → r.status ≠ "denied" → r.status ≠ "approved" →
           execute_api_call_run create fetch execResp timeout pollInterval =
             some (.vaultError ("Unexpected status " ++ squote ++ r.status ++
                   squote ++ " for request " ++ create.id), n, 0))
      ∧ (r.status = "approved" →
           execute_api_call_run create fetch execResp timeout pollInterval =
             some (.success execResp, n, 1)))) := by
  constructor
  · intro hden
    rw [execute_api_call_run]
    simp [hden]
  · intro r n hnden hphase
    have hrun : execute_api_call_run create fetch execResp timeout pollInterval =
        (if r.status = "expired" then some (.expired create.id, n, 0)
         else if r.status = "denied" then some (.denied create.id r.deny_reason, n, 0)
         else if r.status ≠ "approved" then
           some (.vaultError ("Unexpected status " ++ squote ++ r.status ++ squote ++
                 " for request " ++ create.id), n, 0)
         else some (.success execResp, n, 1)) := by
      rw [execute_api_call_run]
      simp [hnden, hphase]
    refine ⟨?_, ?_, ?_, ?_⟩
    · intro h
      rw [hrun]
      simp [h]
    · intro h
      rw [hrun]
      simp [h]
    · intro h1 h2 h3
      rw [hrun]
      simp [h1, h2, h3]
    · intro h
      rw [hrun]
      simp [h]

/-- Witness for C2 at concrete inputs: an immediately-denied create
response yields the denied failure with its reason and no further calls,
and a pending create response whose polls go pending/pending/approved
yields the vault-execute response after 3 status fetches and exactly one
execute call. -/
theorem execute_api_call_mapping_witness :
    execute_api_call_run ⟨"denied", "req2", some "limit exceeded"⟩
        exPendingFetch "resp" 5 1 =
      some (.denied "req2" (some "limit exceeded"), 0, 0)
  ∧ execute_api_call_run ⟨"pending", "req1", none⟩ exApproveFetch "resp" 5 1 =
      some (.success "resp", 3, 1) := by
  have hN : loopIters 5 1 = 5 := by
    rw [loopIters]
    norm_num
  constructor
  · exact (execute_api_call_mapping ⟨"denied", "req2", some "limit exceeded"⟩
      exPendingFetch "resp" 5 1).1 rfl
  · have hphase : execPhase2 ⟨"pending", "req1", none⟩ exApproveFetch 5 1 =
        some (⟨"approved", "req1", none⟩, 3) := by
      rw [execPhase2]
      norm_num [hN, execWaitLoop, exApproveFetch]
      exact fun h => absurd h (by decide)
    exact ((execute_api_call_mapping ⟨"pending", "req1", none⟩ exApproveFetch
      "resp" 5 1).2 ⟨"approved", "req1", none⟩ 3 (by decide) hphase).2.2.2 rfl

/-- C3 counterexample: two backend responses for which `_request` does not
behave as claimed.  A 500 response whose body parses as the JSON string
"oops" (parseable JSON, but not an object) makes
`resp.json().get("detail", resp.text)` raise an uncaught `AttributeError`
instead of any API failure; and a 304 response is non-2xx yet counts as
`ok` (`requests` only flags codes ≥ 400), so `_request` raises no API
failure and instead tries to parse the empty body, which raises an
uncaught `ValueError`. -/
theorem handle_response_counterexample :
    handle_response ⟨500, some (.str "oops"), "\"oops\""⟩ =
      .pythonError "AttributeError"
  ∧ handle_response ⟨304, none, ""⟩ = .pythonError "ValueError" :=
  ⟨rfl, rfl⟩

/-- C3 (amended): `_request` maps HTTP 429 to the distinct rate-limit
failure, a specialization of the generic API failure with status code 429;
every other response with status ≥ 400 raises a generic API failure
carrying the status code and a detail taken from the `detail` field of the
body when the body parses as a JSON object (falling back to the raw text
when the object lacks the field), and the raw response text when the body
is not parseable JSON — that fallback path raising no secondary error.
(Statuses in 300-399 are treated as success, and a body parsing to
non-object JSON raises an uncaught `AttributeError`; see the
counterexample.) -/
theorem handle_response_spec (resp : HttpResponse) :
    (resp.status_code = 429 →
       handle_response resp = .apiError ⟨429, .str "Rate limit exceeded", true⟩)
  ∧ (400 ≤ resp.status_code → resp.status_code ≠ 429 →
       ((resp.jsonBody = none →
           handle_response resp =
             .apiError ⟨resp.status_code, .str resp.text, false⟩)
      ∧ (∀ fields, resp.jsonBody = some (.obj fields) →
           handle_response resp =
             .apiError ⟨resp.status_code,
               (List.lookup "detail" fields).getD (.str resp.text), false⟩))) := by
  constructor
  · intro h429
    rw [handle_response]
    simp [h429]
  · intro h400 h429
    have hok : resp.ok = false := by
      rw [HttpResponse.ok]
      simp
      omega
    constructor
    · intro hjson
      rw [handle_response]
      simp [h429, hok, hjson]
    · intro fields hjson
      rw [handle_response]
      simp [h429, hok, hjson]

/-- Witness for the amended C3 at concrete responses: a 429 yields the
rate-limit failure; a 503 with a non-JSON body yields an API failure whose
detail is the raw text; a 403 with JSON body containing a `detail` field
yields an API failure with that detail. -/
theorem handle_response_spec_witness :
    handle_response ⟨429, none, ""⟩ =
      .apiError ⟨429, .str "Rate limit exceeded", true⟩
  ∧ handle_response ⟨503, none, "Service Unavailable"⟩ =
      .apiError ⟨503, .str "Service Unavailable", false⟩
  ∧ handle_response ⟨403, some (.obj [("detail", .str "forbidden")]),
        "body text"⟩ =
      .apiError ⟨403, .str "forbidden", false⟩ := by
  refine ⟨?_, ?_, ?_⟩
  · exact (handle_response_spec ⟨429, none, ""⟩).1 rfl
  · exact ((handle_response_spec ⟨503, none, "Service Unavailable"⟩).2
      (by norm_num) (by norm_num)).1 rfl
  · have h := ((handle_response_spec ⟨403, some (.obj [("detail", .str "forbidden")]),
      "body text"⟩).2 (by norm_num) (by norm_num)).2
      [("detail", .str "forbidden")] rfl
    simpa [List.lookup] using h

/-- Sorting by key sends any two permuted parameter mappings with
duplicate-free keys to the same list: the canonical form is
insertion-order independent. -/
theorem canonicalParams_perm_eq {P Q : List (String × JVal)}
    (hPQ : P.Perm Q) (hnodup : (P.map Prod.fst).Nodup) :
    canonicalParams P = canonicalParams Q := by
  have hpermP : (canonicalParams P).Perm P := List.perm_insertionSort keyLE P
  have hpermQ : (canonicalParams Q).Perm Q := List.perm_insertionSort keyLE Q
  have hperm : (canonicalParams P).Perm (canonicalParams Q) :=
    (hpermP.trans hPQ).trans hpermQ.symm
  have hnodupP : ((canonicalParams P).map Prod.fst).Nodup :=
    ((hpermP.map Prod.fst).nodup_iff).mpr hnodup
  have hnodupQ : ((canonicalParams Q).map Prod.fst).Nodup :=
    ((hpermQ.map Prod.fst).nodup_iff).mpr
      (((hPQ.map Prod.fst).nodup_iff).mp hnodup)
  have hstrict : ∀ l : List (String × JVal), l.Sorted keyLE →
      (l.map Prod.fst).Nodup →
      l.Sorted (fun x y : String × JVal => x.1 < y.1) := by
    intro l hs hn
    have hne : l.Pairwise (fun x y : String × JVal => x.1 ≠ y.1) :=
      List.pairwise_map.mp hn
    exact (hs.and hne).imp (fun h => lt_of_le_of_ne h.1 h.2)
  exact @List.eq_of_perm_of_sorted _ (fun x y : String × JVal => x.1 < y.1)
    ⟨fun a b h1 h2 => absurd (h1.trans h2) (lt_irrefl _)⟩ _ _ hperm
    (hstrict _ (List.sorted_insertionSort keyLE P) hnodupP)
    (hstrict _ (List.sorted_insertionSort keyLE Q) hnodupQ)

/-- C5: the content fingerprint is a pure function of the parameter
mapping — for any two insertion orders of the same key/value pairs (with
well-formed, duplicate-free keys) it produces identical output, and the
client-side computation equals the backend-reported fingerprint for the
same parameters. -/
theorem compute_content_hash_spec (P Q : List (String × JVal))
    (hPQ : P.Perm Q) (hnodup : (P.map Prod.fst).Nodup) :
    compute_content_hash P = compute_content_hash Q
  ∧ compute_content_hash P = backend_content_hash P := by
  constructor
  · rw [compute_content_hash, compute_content_hash,
      canonicalParams_perm_eq hPQ hnodup]
  · rfl

/-- Witness for C5: the mapping with pairs b ↦ "2", a ↦ "1" has the same
fingerprint whether the keys are inserted as b, a or as a, b, and matches
the backend fingerprint. -/
theorem compute_content_hash_spec_witness :
    compute_content_hash [("b", .str "2"), ("a", .str "1")] =
      compute_content_hash [("a", .str "1"), ("b", .str "2")]
  ∧ compute_content_hash [("b", .str "2"), ("a", .str "1")] =
      backend_content_hash [("b", .str "2"), ("a", .str "1")] :=
  compute_content_hash_spec _ _
    (List.Perm.swap ("a", JVal.str "1") ("b", JVal.str "2") [])
    (by decide)

/-- C10: `request_action` treats provided-but-empty optional values as
absent — each optional key is present in the payload exactly when its
Python truthiness test passes, so an empty-string description, recipient
or callback URL and an empty metadata mapping are omitted exactly as if
not supplied, and `currency` is present iff `amount` is not `None`. -/
theorem request_action_payload_truthiness (a : ActionArgs) :
    ("description" ∈ jsonKeys (request_action_payload a) ↔
       strTruthy a.description = true)
  ∧ ("recipient" ∈ jsonKeys (request_action_payload a) ↔
       strTruthy a.recipient = true)
  ∧ ("callback_url" ∈ jsonKeys (request_action_payload a) ↔
       strTruthy a.callback_url = true)
  ∧ ("metadata" ∈ jsonKeys (request_action_payload a) ↔
       dictTruthy a.metadata = true)
  ∧ ("amount" ∈ jsonKeys (request_action_payload a) ↔
       a.amount.isSome = true)
  ∧ ("currency" ∈ jsonKeys (request_action_payload a) ↔
       a.amount.isSome = true) := by
  obtain ⟨atp, ti, de, rl, rev, am, cu, re, me, ex, cb⟩ := a
  cases hd : strTruthy de <;> cases hr : strTruthy re <;>
    cases hcb : strTruthy cb <;> cases hm : dictTruthy me <;> cases am <;>
      simp [request_action_payload, jsonKeys, hd, hr, hcb, hm]

/-- C6 counterexample: a call that supplies `amount` but not `currency`
(leaving `currency` at its "USD" default) still sends a `currency` field:
`currency` is an optional field the caller did not supply, yet it is not
absent from the payload, against the per-field claim. -/
theorem request_action_payload_counterexample :
    "currency" ∈ jsonKeys (request_action_payload
      { action_type := "purchase", title := "t", amount := some 5 }) := by
  simp [request_action_payload, jsonKeys, strTruthy, dictTruthy]

/-- C6 (amended): the required fields `action_type`, `title`,
`risk_level`, `reversible` and `expires_in_seconds` are present in every
payload; each of `description`, `amount`, `recipient`, `metadata` and
`callback_url` is absent (not sent as null) when the caller did not
supply it; and `currency` — whose presence is tied to `amount` rather
than to its own being supplied — is in the payload exactly when `amount`
is supplied (defaulting to "USD"), hence absent whenever `amount` is
absent. -/
theorem request_action_payload_required_optional (a : ActionArgs) :
    ("action_type" ∈ jsonKeys (request_action_payload a)
      ∧ "title" ∈ jsonKeys (request_action_payload a)
      ∧ "risk_level" ∈ jsonKeys (request_action_payload a)
      ∧ "reversible" ∈ jsonKeys (request_action_payload a)
      ∧ "expires_in_seconds" ∈ jsonKeys (request_action_payload a))
  ∧ (a.description = none →
       "description" ∉ jsonKeys (request_action_payload a))
  ∧ (a.amount = none →
       "amount" ∉ jsonKeys (request_action_payload a)
         ∧ "currency" ∉ jsonKeys (request_action_payload a))
  ∧ (a.recipient = none →
       "recipient" ∉ jsonKeys (request_action_payload a))
  ∧ (a.metadata = none →
       "metadata" ∉ jsonKeys (request_action_payload a))
  ∧ (a.callback_url = none →
       "callback_url" ∉ jsonKeys (request_action_payload a))
  ∧ (a.amount.isSome = true →
       "currency" ∈ jsonKeys (request_action_payload a)) := by
  obtain ⟨atp, ti, de, rl, rev, am, cu, re, me, ex, cb⟩ := a
  refine ⟨?_, ?_, ?_, ?_, ?_, ?_, ?_⟩
  · cases hd : strTruthy de <;> cases hr : strTruthy re <;>
      cases hcb : strTruthy cb <;> cases hm : dictTruthy me <;> cases am <;>
        simp [request_action_payload, jsonKeys, hd, hr, hcb, hm]
  · intro h
    subst h
    cases am <;> simp [request_action_payload, jsonKeys, strTruthy]
  · intro h
    subst h
    simp [request_action_payload, jsonKeys]
  · intro h
    subst h
    cases am <;> simp [request_action_payload, jsonKeys, strTruthy]
  · intro h
    subst h
    cases am <;> simp [request_action_payload, jsonKeys, dictTruthy]
  · intro h
    subst h
    cases am <;> simp [request_action_payload, jsonKeys, strTruthy]
  · intro h
    cases am with
    | none => simp at h
    | some v => simp [request_action_payload, jsonKeys]

/-- Witness for the amended C6: with only the required arguments supplied
the payload has `action_type` but neither `description` nor `currency`;
adding `amount` makes `currency` appear. -/
theorem request_action_payload_required_optional_witness :
    "action_type" ∈ jsonKeys (request_action_payload
        { action_type := "x", title := "t" })
  ∧ "description" ∉ jsonKeys (request_action_payload
        { action_type := "x", title := "t" })
  ∧ "currency" ∉ jsonKeys (request_action_payload
        { action_type := "x", title := "t" })
  ∧ "currency" ∈ jsonKeys (request_action_payload
        { action_type := "x", title := "t", amount := some 5 }) :=
  ⟨(request_action_payload_required_optional _).1.1,
   (request_action_payload_required_optional _).2.1 rfl,
   ((request_action_payload_required_optional _).2.2.1 rfl).2,
   (request_action_payload_required_optional
     { action_type := "x", title := "t", amount := some 5 }).2.2.2.2.2.2 rfl⟩

/-- C7: the payment-only wrapper always submits `action_type =
"purchase"`; the contract helper always submits `reversible = false` with
default risk `critical` unless explicitly overridden; and every
per-category helper has its fixed category and default risk level:
communication and scheduling → low, purchase and social → medium, data
access → high, legal → critical. -/
theorem category_defaults (amount : ℚ)
    (merchant description title resource reason platform content
      recipient subject override : String) :
    (SynPay.request_payment amount merchant description).action_type = "purchase"
  ∧ (request_contract title description).reversible = false
  ∧ (request_contract title description).risk_level = "critical"
  ∧ (request_contract title description (some override)).risk_level = override
  ∧ (request_contract title description).action_type = "legal"
  ∧ (request_email recipient subject).action_type = "communication"
  ∧ (request_email recipient subject).risk_level = "low"
  ∧ (request_booking title).action_type = "scheduling"
  ∧ (request_booking title).risk_level = "low"
  ∧ (request_purchase amount merchant).action_type = "purchase"
  ∧ (request_purchase amount merchant).risk_level = "medium"
  ∧ (request_post platform content).action_type = "social"
  ∧ (request_post platform content).risk_level = "medium"
  ∧ (request_data_access resource reason).action_type = "data_access"
  ∧ (request_data_access resource reason).risk_level = "high" :=
  ⟨rfl, rfl, rfl, rfl, rfl, rfl, rfl, rfl, rfl, rfl, rfl, rfl, rfl, rfl, rfl⟩

/-- C8: the payment client is a pure composition over the core client —
its `get_status` and `wait_for_result` forward to the core client
unchanged (same oracle, same arguments, same result, no extra polling or
error handling), and `request_payment` produces exactly the submission
`request_purchase` produces for the corresponding amount, merchant,
description, currency and metadata. -/
theorem synpay_pure_composition (fetch : ℕ → Snapshot) (k : ℕ)
    (timeout pollInterval : ℚ) (amount : ℚ)
    (merchant description currency : String)
    (metadata : Option (List (String × JVal))) :
    SynPay.get_status fetch k = SynAuthClient.get_status fetch k
  ∧ SynPay.wait_for_result fetch timeout pollInterval =
      wait_for_result fetch timeout pollInterval
  ∧ SynPay.request_payment amount merchant description currency metadata =
      request_purchase amount merchant (some description) none currency
        metadata :=
  ⟨rfl, rfl, rfl⟩

/-- C9: whatever service, method, URL, headers, body and description are
requested, the action submitted by `execute_api_call` carries
`action_type` "data_access" and `risk_level` "medium", and its metadata
field holds the vault call details under `vault_execute = true`. -/
theorem execute_api_call_payload_fixed (service_name method url : String)
    (headers : Option (List (String × JVal))) (body : Option String)
    (description : Option String) :
    List.lookup "action_type"
        (execute_api_call_payload service_name method url headers body description) =
      some (JVal.str "data_access")
  ∧ List.lookup "risk_level"
        (execute_api_call_payload service_name method url headers body description) =
      some (JVal.str "medium")
  ∧ List.lookup "metadata"
        (execute_api_call_payload service_name method url headers body description) =
      some (JVal.obj
        [("vault_execute", JVal.bool true),
         ("service_name", JVal.str service_name),
         ("method", JVal.str method),
         ("url", JVal.str url),
         ("headers", JVal.obj (headers.getD [])),
         ("body", match body with | some b => JVal.str b | none => JVal.null)]) := by
  refine ⟨rfl, rfl, ?_⟩
  match headers with
  | none => rfl
  | some [] => rfl
  | some (x :: t) => rfl
